import Mathlib

/-!
Shallow embedding of the MCP aggregator worker (the request router in front of
two JSON-RPC backends).  The embedding follows the TypeScript source line by
line: the envelope interface `McpMessage`, the backend client
`McpAggregator.forwardRequest`, the classifier `McpAggregator.isAtlassianTool`,
the catalog merge `McpAggregator.getAllTools`, the orchestrator
`McpAggregator.handleRequest`, and the HTTP POST entry point.

Effects are made explicit:
* one outbound network call is a query to a `Network` oracle mapping
  (server URL, request envelope) to a `TransportOutcome` — the possible
  outcomes of `fetch` + `response.json()` in the source (success, rejected
  fetch, non-2xx status, unparseable body);
* every function that forwards requests also returns the ordered list of
  (URL, envelope) pairs it sent — its `CallTrace` — so that "backend is not
  contacted" is the trace being empty.

Payload parts the router never inspects (tool input schemas, extra params
fields, extra result fields, extra error fields) are carried as opaque
strings so that envelopes still compare for verbatim pass-through.
-/

/-- Correlation id of an envelope: `string | number` in the source. -/
inductive McpId where
  | str (s : String)
  | num (n : Int)
deriving DecidableEq, Repr

/-- Tool descriptor `ToolInfo` from the source; `inputSchema : any` is kept
as an opaque string. -/
structure ToolInfo where
  name : String
  description : String
  inputSchema : String
deriving DecidableEq, Repr

/-- The `params : any` payload, restricted to what the router reads:
`params?.name` (absent, or a string that may be empty), plus an opaque
remainder standing for every other params field. -/
structure McpParams where
  name : Option String
  extra : String
deriving DecidableEq, Repr

/-- The `result : any` payload, restricted to what the router reads and
writes: the optional `result.tools` array, plus an opaque remainder standing
for every other result field. -/
structure McpResult where
  tools : Option (List ToolInfo)
  extra : String
deriving DecidableEq, Repr

/-- The `error : any` payload: `code` and `message` as constructed by the
router, plus an opaque remainder for backend-supplied error data. -/
structure McpError where
  code : Int
  message : String
  extra : String
deriving DecidableEq, Repr

/-- The envelope interface `McpMessage` of the source.  The `jsonrpc` field
is a plain string because backend response bodies are parsed without
validation (`await response.json()` cast to `McpMessage`). -/
structure McpMessage where
  jsonrpc : String
  id : Option McpId
  method : Option String
  params : Option McpParams
  result : Option McpResult
  error : Option McpError
deriving DecidableEq, Repr

/-- `message.params?.name` — the optional-chained tool-name read. -/
def McpMessage.toolName (m : McpMessage) : Option String :=
  m.params.bind McpParams.name

/-- JavaScript truthiness of `params?.name`: falsy when the chain yields
`undefined`/`null` (here `none`) and when the name is the empty string. -/
def truthyName : Option String → Bool
  | none => false
  | some s => decide (s ≠ "")

/-- Outcome of one `fetch(serverUrl, ...)` + `response.json()` round trip:
the fulfilled, parsed response; a rejected fetch (network error, carrying
the thrown `Error`'s message); a non-2xx `response.status`/`statusText`;
or a body that `response.json()` fails to parse (carrying the thrown
`SyntaxError`'s message). -/
inductive TransportOutcome where
  | ok (response : McpMessage)
  | networkError (message : String)
  | httpError (status : Nat) (statusText : String)
  | bodyParseError (message : String)
deriving DecidableEq, Repr

/-- Whether the round trip produced a parsed response. -/
def TransportOutcome.isOk : TransportOutcome → Bool
  | .ok _ => true
  | .networkError _ => false
  | .httpError _ _ => false
  | .bodyParseError _ => false

/-- The failure-cause text of a non-ok outcome, exactly as the source's
`catch` sees it: the message of the thrown `Error`, where a non-2xx status
first throws `Server responded with ${status}: ${statusText}`. -/
def TransportOutcome.failureText : TransportOutcome → Option String
  | .ok _ => none
  | .networkError m => some m
  | .httpError st stx => some ("Server responded with " ++ toString st ++ ": " ++ stx)
  | .bodyParseError m => some m

/-- The network environment: what one outbound call to a given URL with a
given request body produces. -/
abbrev Network : Type := String → McpMessage → TransportOutcome

/-- Ordered log of the outbound calls a function performed:
(server URL, forwarded envelope) pairs. -/
abbrev CallTrace : Type := List (String × McpMessage)

/-- The worker environment `Env`: the two optional URL overrides. -/
structure Env where
  EXISTING_MCP_SERVER_URL : Option String
  ATLASSIAN_MCP_SERVER_URL : Option String
deriving DecidableEq, Repr

/-- JavaScript `a || b` on an optional string: the override is used only
when present and truthy (non-empty). -/
def jsOrElse (o : Option String) (dflt : String) : String :=
  match o with
  | some s => if s = "" then dflt else s
  | none => dflt

/-- The aggregator's per-request state: the two backend URLs fixed by the
constructor. -/
structure McpAggregator where
  existingServerUrl : String
  atlassianServerUrl : String
deriving DecidableEq, Repr

/-- The constructor `new McpAggregator(env)`: each URL is the environment
override or a fixed default. -/
def McpAggregator.ofEnv (env : Env) : McpAggregator :=
  { existingServerUrl :=
      jsOrElse env.EXISTING_MCP_SERVER_URL
        "https://remote-mcp-server-authless.gladden4work.workers.dev"
    atlassianServerUrl :=
      jsOrElse env.ATLASSIAN_MCP_SERVER_URL
        "https://atlassian-mcp-server.gladden4work.workers.dev" }

/-- Does the first character list lead the second one?  Structural helper
for `jsStartsWith`. -/
def charsStart : List Char → List Char → Bool
  | [], _ => true
  | _ :: _, [] => false
  | c :: cs, d :: ds => c == d && charsStart cs ds

/-- JavaScript `s.startsWith(p)`: `p` is an initial substring of `s`. -/
def jsStartsWith (s p : String) : Bool := charsStart p.data s.data

/-- The prefix table of `isAtlassianTool`, in declaration order. -/
def atlassianToolMarkers : List String :=
  ["jira_", "confluence_", "atlassian_"]

/-- `McpAggregator.isAtlassianTool`: does the tool name start with one of
the Atlassian markers (`Array.prototype.some` over the table)? -/
def McpAggregator.isAtlassianTool (toolName : String) : Bool :=
  atlassianToolMarkers.any (fun p => jsStartsWith toolName p)

/-- The error envelope `forwardRequest` synthesizes in its `catch` block:
`id` copied from the input message, code `-32603`, message naming the
cause. -/
def transportErrorEnvelope (mid : Option McpId) (cause : String) : McpMessage :=
  { jsonrpc := "2.0"
    id := mid
    method := none
    params := none
    result := none
    error := some { code := -32603
                    message := "Failed to contact server: " ++ cause
                    extra := "" } }

/-- The value `McpAggregator.forwardRequest` resolves with, given the
transport outcome of its single `fetch`: the parsed response on success,
otherwise the synthesized `-32603` error envelope. -/
def forwardResponse (outcome : TransportOutcome) (message : McpMessage) : McpMessage :=
  match outcome with
  | .ok r => r
  | .networkError m => transportErrorEnvelope message.id m
  | .httpError st stx =>
      transportErrorEnvelope message.id
        ("Server responded with " ++ toString st ++ ": " ++ stx)
  | .bodyParseError m => transportErrorEnvelope message.id m

/-- `McpAggregator.forwardRequest(serverUrl, message)` under the network
oracle `net`: performs the one outbound call and never raises. -/
def McpAggregator.forwardRequest (net : Network) (serverUrl : String)
    (message : McpMessage) : McpMessage :=
  forwardResponse (net serverUrl message) message

/-- The internally synthesized `tools/list` request of `getAllTools`, with
its internal numeric correlation id. -/
def toolsListRequest (i : Int) : McpMessage :=
  { jsonrpc := "2.0"
    id := some (.num i)
    method := some "tools/list"
    params := none
    result := none
    error := none }

/-- `response.result?.tools` followed by `tools.push(...)`: the entries a
backend response contributes to the merged catalog — its `result.tools`
array when present (any array, even empty, is truthy), nothing otherwise. -/
def McpMessage.contributedTools (m : McpMessage) : List ToolInfo :=
  match m.result with
  | some r =>
      match r.tools with
      | some ts => ts
      | none => []
  | none => []

/-- `McpAggregator.getAllTools`: queries both backends with synthesized
`tools/list` requests (ids 1 and 2) in registration order and concatenates
their contributions; returns the merged list and the call trace.  The
source's `try`/`catch` around each call is dead code because
`forwardRequest` never raises. -/
def McpAggregator.getAllTools (net : Network) (agg : McpAggregator) :
    List ToolInfo × CallTrace :=
  let existingResponse := McpAggregator.forwardRequest net agg.existingServerUrl (toolsListRequest 1)
  let atlassianResponse := McpAggregator.forwardRequest net agg.atlassianServerUrl (toolsListRequest 2)
  (existingResponse.contributedTools ++ atlassianResponse.contributedTools,
   [(agg.existingServerUrl, toolsListRequest 1),
    (agg.atlassianServerUrl, toolsListRequest 2)])

/-- The fixed `initialize` result object (protocol version, capability set,
server info), carried opaquely: the router never reads it back. -/
def initializeResult : McpResult :=
  { tools := none
    extra := "protocolVersion 2024-11-05; capabilities tools; serverInfo mcp-aggregator-server 1.0.0" }

/-- `McpAggregator.handleRequest(message)`: the four-way dispatch on
`message.method`, returning the response envelope and the ordered trace of
outbound calls. -/
def McpAggregator.handleRequest (net : Network) (agg : McpAggregator)
    (message : McpMessage) : McpMessage × CallTrace :=
  if message.method = some "initialize" then
    ({ jsonrpc := "2.0"
       id := message.id
       method := none
       params := none
       result := some initializeResult
       error := none }, [])
  else if message.method = some "tools/list" then
    let allTools := McpAggregator.getAllTools net agg
    ({ jsonrpc := "2.0"
       id := message.id
       method := none
       params := none
       result := some { tools := some allTools.1, extra := "" }
       error := none }, allTools.2)
  else if message.method = some "tools/call" then
    let toolName := message.toolName
    if truthyName toolName = false then
      ({ jsonrpc := "2.0"
         id := message.id
         method := none
         params := none
         result := none
         error := some { code := -32602
                         message := "Missing tool name in parameters"
                         extra := "" } }, [])
    else
      let targetUrl :=
        if McpAggregator.isAtlassianTool (toolName.getD "") then agg.atlassianServerUrl
        else agg.existingServerUrl
      (McpAggregator.forwardRequest net targetUrl message, [(targetUrl, message)])
  else
    let existingResponse := McpAggregator.forwardRequest net agg.existingServerUrl message
    if existingResponse.error.isNone then
      (existingResponse, [(agg.existingServerUrl, message)])
    else
      (McpAggregator.forwardRequest net agg.atlassianServerUrl message,
       [(agg.existingServerUrl, message), (agg.atlassianServerUrl, message)])

/-- The body of a POST response from the entry point, together with its HTTP
status code. -/
structure HttpReply where
  status : Nat
  body : McpMessage
deriving DecidableEq, Repr

/-- The fixed parse-error body of the entry point's `catch` block: no `id`,
code `-32700`. -/
def parseErrorEnvelope : McpMessage :=
  { jsonrpc := "2.0"
    id := none
    method := none
    params := none
    result := none
    error := some { code := -32700, message := "Parse error", extra := "" } }

/-- The POST branch of the worker's `fetch` handler.  `parsedBody` is the
outcome of `await request.json()`: `some message` when the body parses as an
envelope, `none` when it throws.  On success the aggregator is constructed
from `env` and its response returned with the default status 200; on parse
failure the fixed `-32700` envelope is returned with status 400 and no
backend call is made. -/
def fetchPost (net : Network) (env : Env) (parsedBody : Option McpMessage) :
    HttpReply × CallTrace :=
  match parsedBody with
  | some message =>
      let agg := McpAggregator.ofEnv env
      let response := McpAggregator.handleRequest net agg message
      ({ status := 200, body := response.1 }, response.2)
  | none =>
      ({ status := 400, body := parseErrorEnvelope }, [])

/-! Concrete fixtures used by the witness theorems. -/

/-- A concrete aggregator with two distinct backend URLs. -/
def sampleAggregator : McpAggregator :=
  { existingServerUrl := "https-general-test"
    atlassianServerUrl := "https-atlassian-test" }

/-- A network on which every backend call fails at the transport level. -/
def netDown : Network := fun _ _ => .networkError "connection refused"

/-- A request envelope with an unrouted method. -/
def pingMessage : McpMessage :=
  { jsonrpc := "2.0", id := some (.num 7), method := some "ping"
    params := none, result := none, error := none }

/-- A `tools/call` envelope with the given (possibly absent) tool name. -/
def mkToolCall (n : Option String) : McpMessage :=
  { jsonrpc := "2.0", id := some (.num 3), method := some "tools/call"
    params := some { name := n, extra := "call arguments" }
    result := none, error := none }

/-- A `tools/list` envelope from a caller. -/
def toolsListCall : McpMessage :=
  { jsonrpc := "2.0", id := some (.str "cli-1"), method := some "tools/list"
    params := none, result := none, error := none }

/-- Two tool descriptors of the general backend. -/
def sampleTools : List ToolInfo :=
  [{ name := "add", description := "Add two numbers", inputSchema := "schema-add" },
   { name := "calculate", description := "Arithmetic", inputSchema := "schema-calc" }]

/-- A successful `tools/list` backend response carrying a catalog. -/
def toolsOkEnvelope (ts : List ToolInfo) : McpMessage :=
  { jsonrpc := "2.0", id := some (.num 1), method := none, params := none
    result := some { tools := some ts, extra := "" }, error := none }

/-- A network where the general backend serves a catalog and the Atlassian
backend is unreachable. -/
def netCatalog : Network := fun url _ =>
  if url = "https-general-test" then .ok (toolsOkEnvelope sampleTools)
  else .networkError "connection refused"

/-- A backend-produced error response (the backend answered 2xx with an
`error` member of its own). -/
def backendErrorEnvelope : McpMessage :=
  { jsonrpc := "2.0", id := some (.num 3), method := none, params := none
    result := none
    error := some { code := -32001, message := "Issue not found", extra := "backend data" } }

/-- A network on which every backend answers with its own error envelope. -/
def netBackendError : Network := fun _ _ => .ok backendErrorEnvelope

/-- A network where the general backend rejects with an in-envelope error
and the Atlassian backend answers successfully. -/
def netGeneralRejects : Network := fun url m =>
  if url = "https-general-test" then
    .ok { jsonrpc := "2.0", id := m.id, method := none, params := none, result := none
          error := some { code := -32601, message := "Method not found", extra := "" } }
  else
    .ok { jsonrpc := "2.0", id := m.id, method := none, params := none
          result := some { tools := none, extra := "resource data" }, error := none }

/-- A well-formed response envelope in the sense of the spec's failure
semantics: the protocol tag is `"2.0"` and a `result` or an `error` member
is present. -/
def WellFormedEnvelope (m : McpMessage) : Prop :=
  m.jsonrpc = "2.0" ∧ (m.result.isSome = true ∨ m.error.isSome = true)

/-- C1: `forwardRequest(endpoint, envelope)` never raises — it is a total
function of the transport outcome — and on any transport failure (network
error, non-2xx status, or unparseable response body) it returns an error
envelope whose `id` equals the input envelope's `id`, whose error code is
the fixed internal-error code `-32603`, and whose error message names the
failure cause. -/
theorem forwardRequest_transport_failure (net : Network) (url : String) (m : McpMessage)
    (h : (net url m).isOk = false) :
    (McpAggregator.forwardRequest net url m).id = m.id ∧
    (McpAggregator.forwardRequest net url m).result = none ∧
    ∃ e, (McpAggregator.forwardRequest net url m).error = some e ∧
      e.code = -32603 ∧
      ∃ cause, (net url m).failureText = some cause ∧
        e.message = "Failed to contact server: " ++ cause := by
  cases hc : net url m with
  | ok r => rw [hc] at h; simp [TransportOutcome.isOk] at h
  | networkError msg =>
      refine ⟨?_, ?_, ?_⟩ <;>
        simp [McpAggregator.forwardRequest, forwardResponse, hc,
          transportErrorEnvelope, TransportOutcome.failureText]
  | httpError st stx =>
      refine ⟨?_, ?_, ?_⟩ <;>
        simp [McpAggregator.forwardRequest, forwardResponse, hc,
          transportErrorEnvelope, TransportOutcome.failureText]
  | bodyParseError msg =>
      refine ⟨?_, ?_, ?_⟩ <;>
        simp [McpAggregator.forwardRequest, forwardResponse, hc,
          transportErrorEnvelope, TransportOutcome.failureText]

/-- Witness for C1: a rejected fetch on a concrete request yields the
synthesized `-32603` envelope. -/
theorem forwardRequest_transport_failure_witness :
    (netDown "https-general-test" pingMessage).isOk = false ∧
    ((McpAggregator.forwardRequest netDown "https-general-test" pingMessage).id = pingMessage.id ∧
     (McpAggregator.forwardRequest netDown "https-general-test" pingMessage).result = none ∧
     ∃ e, (McpAggregator.forwardRequest netDown "https-general-test" pingMessage).error = some e ∧
       e.code = -32603 ∧
       ∃ cause, (netDown "https-general-test" pingMessage).failureText = some cause ∧
         e.message = "Failed to contact server: " ++ cause) :=
  ⟨rfl, forwardRequest_transport_failure netDown "https-general-test" pingMessage rfl⟩

/-- C2: tool classification is total and deterministic — `isAtlassianTool`
is a pure Boolean function holding exactly when the name starts with one of
the three markers in declaration order — and a `tools/call` whose
`params.name` is `"jira_search"` is dispatched only to the Atlassian
backend: the call trace is exactly one forward to the Atlassian URL, never
one to the general URL. -/
theorem classify_total_and_dispatch :
    (∀ n : String, McpAggregator.isAtlassianTool n =
       (jsStartsWith n "jira_" || (jsStartsWith n "confluence_" || jsStartsWith n "atlassian_"))) ∧
    McpAggregator.isAtlassianTool "jira_search" = true ∧
    (∀ (net : Network) (agg : McpAggregator) (m : McpMessage),
      m.method = some "tools/call" → m.toolName = some "jira_search" →
      (McpAggregator.handleRequest net agg m).2 = [(agg.atlassianServerUrl, m)] ∧
      (McpAggregator.handleRequest net agg m).1 =
        McpAggregator.forwardRequest net agg.atlassianServerUrl m) := by
  refine ⟨?_, by decide, ?_⟩
  · intro n
    simp [McpAggregator.isAtlassianTool, atlassianToolMarkers, List.any]
  · intro net agg m h hn
    have hA : McpAggregator.isAtlassianTool "jira_search" = true := by decide
    have htn : truthyName (some "jira_search") = true := by decide
    constructor <;> simp [McpAggregator.handleRequest, h, hn, htn, hA]

/-- Witness for C2: the concrete `jira_search` call on a concrete aggregator
is forwarded once, to the Atlassian URL. -/
theorem classify_total_and_dispatch_witness :
    (mkToolCall (some "jira_search")).method = some "tools/call" ∧
    (mkToolCall (some "jira_search")).toolName = some "jira_search" ∧
    ((McpAggregator.handleRequest netDown sampleAggregator (mkToolCall (some "jira_search"))).2 =
       [(sampleAggregator.atlassianServerUrl, mkToolCall (some "jira_search"))] ∧
     (McpAggregator.handleRequest netDown sampleAggregator (mkToolCall (some "jira_search"))).1 =
       McpAggregator.forwardRequest netDown sampleAggregator.atlassianServerUrl
         (mkToolCall (some "jira_search"))) :=
  ⟨rfl, rfl,
   classify_total_and_dispatch.2.2 netDown sampleAggregator (mkToolCall (some "jira_search")) rfl rfl⟩

/-- C5: a `tools/call` envelope whose params carry no name gets the fixed
`-32602` invalid-params error envelope with the inbound `id`, and no
backend is contacted (empty call trace). -/
theorem toolsCall_missing_name (net : Network) (agg : McpAggregator) (m : McpMessage)
    (h : m.method = some "tools/call") (hn : m.toolName = none) :
    (McpAggregator.handleRequest net agg m).1 =
      { jsonrpc := "2.0", id := m.id, method := none, params := none, result := none
        error := some { code := -32602, message := "Missing tool name in parameters", extra := "" } } ∧
    (McpAggregator.handleRequest net agg m).2 = [] := by
  constructor <;> simp [McpAggregator.handleRequest, h, hn, truthyName]

/-- Witness for C5: a concrete `tools/call` without a name contacts no
backend and yields the `-32602` envelope. -/
theorem toolsCall_missing_name_witness :
    (mkToolCall none).method = some "tools/call" ∧
    (mkToolCall none).toolName = none ∧
    ((McpAggregator.handleRequest netDown sampleAggregator (mkToolCall none)).1 =
       { jsonrpc := "2.0", id := (mkToolCall none).id, method := none, params := none, result := none
         error := some { code := -32602, message := "Missing tool name in parameters", extra := "" } } ∧
     (McpAggregator.handleRequest netDown sampleAggregator (mkToolCall none)).2 = []) :=
  ⟨rfl, rfl, toolsCall_missing_name netDown sampleAggregator (mkToolCall none) rfl rfl⟩

/-- C10: a `tools/call` whose `params.name` is present but equal to the
empty string is treated exactly like a missing name — the `-32602`
invalid-params envelope is returned and no backend is contacted — because
the presence check is a JavaScript falsiness test on the name. -/
theorem toolsCall_empty_name_invalid_params (net : Network) (agg : McpAggregator) (m : McpMessage)
    (h : m.method = some "tools/call") (hn : m.toolName = some "") :
    (McpAggregator.handleRequest net agg m).1 =
      { jsonrpc := "2.0", id := m.id, method := none, params := none, result := none
        error := some { code := -32602, message := "Missing tool name in parameters", extra := "" } } ∧
    (McpAggregator.handleRequest net agg m).2 = [] := by
  have htn : truthyName (some "") = false := by decide
  constructor <;> simp [McpAggregator.handleRequest, h, hn, htn]

/-- Witness for C10: a concrete `tools/call` with `params.name = ""`
contacts no backend and yields the `-32602` envelope. -/
theorem toolsCall_empty_name_invalid_params_witness :
    (mkToolCall (some "")).method = some "tools/call" ∧
    (mkToolCall (some "")).toolName = some "" ∧
    ((McpAggregator.handleRequest netDown sampleAggregator (mkToolCall (some ""))).1 =
       { jsonrpc := "2.0", id := (mkToolCall (some "")).id, method := none, params := none, result := none
         error := some { code := -32602, message := "Missing tool name in parameters", extra := "" } } ∧
     (McpAggregator.handleRequest netDown sampleAggregator (mkToolCall (some ""))).2 = []) :=
  ⟨rfl, rfl, toolsCall_empty_name_invalid_params netDown sampleAggregator (mkToolCall (some "")) rfl rfl⟩

/-- Counterexample to C6 as stated: a `tools/call` envelope whose tool name
is present (`params.name = ""`) is not forwarded to any backend — the call
trace is empty — and the returned error is synthesized by the router, not a
backend response. -/
theorem toolsCall_present_name_not_always_forwarded :
    (mkToolCall (some "")).toolName = some "" ∧
    (McpAggregator.handleRequest netDown sampleAggregator (mkToolCall (some ""))).2 = [] ∧
    (McpAggregator.handleRequest netDown sampleAggregator (mkToolCall (some ""))).1.error =
      some { code := -32602, message := "Missing tool name in parameters", extra := "" } := by
  refine ⟨rfl, by decide, by decide⟩

/-- C6 (amended): for every `tools/call` envelope with a present, non-empty
tool name, the router forwards exactly the original inbound envelope,
unmodified, to the single backend chosen by classification, and returns
that backend's response verbatim — including any error the backend itself
produced. -/
theorem toolsCall_forward_verbatim (net : Network) (agg : McpAggregator) (m : McpMessage)
    (n : String) (h : m.method = some "tools/call") (hn : m.toolName = some n)
    (hne : n ≠ "") :
    (McpAggregator.handleRequest net agg m).2 =
      [((if McpAggregator.isAtlassianTool n then agg.atlassianServerUrl
          else agg.existingServerUrl), m)] ∧
    (McpAggregator.handleRequest net agg m).1 =
      McpAggregator.forwardRequest net
        (if McpAggregator.isAtlassianTool n then agg.atlassianServerUrl
         else agg.existingServerUrl) m ∧
    (∀ r, net (if McpAggregator.isAtlassianTool n then agg.atlassianServerUrl
               else agg.existingServerUrl) m = .ok r →
       (McpAggregator.handleRequest net agg m).1 = r) := by
  have htn : truthyName (some n) = true := by simp [truthyName, hne]
  refine ⟨?_, ?_, ?_⟩
  · simp [McpAggregator.handleRequest, h, hn, htn]
  · simp [McpAggregator.handleRequest, h, hn, htn]
  · intro r hr
    simp [McpAggregator.handleRequest, h, hn, htn, McpAggregator.forwardRequest, hr,
      forwardResponse]

/-- Witness for C6 (amended): a concrete `confluence_search` call against a
backend that answers with its own error envelope is forwarded once to the
Atlassian URL and that error envelope is returned verbatim. -/
theorem toolsCall_forward_verbatim_witness :
    (mkToolCall (some "confluence_search")).method = some "tools/call" ∧
    (mkToolCall (some "confluence_search")).toolName = some "confluence_search" ∧
    "confluence_search" ≠ "" ∧
    ((McpAggregator.handleRequest netBackendError sampleAggregator
        (mkToolCall (some "confluence_search"))).2 =
       [((if McpAggregator.isAtlassianTool "confluence_search" then
            sampleAggregator.atlassianServerUrl
          else sampleAggregator.existingServerUrl), mkToolCall (some "confluence_search"))] ∧
     (McpAggregator.handleRequest netBackendError sampleAggregator
        (mkToolCall (some "confluence_search"))).1 =
       McpAggregator.forwardRequest netBackendError
         (if McpAggregator.isAtlassianTool "confluence_search" then
            sampleAggregator.atlassianServerUrl
          else sampleAggregator.existingServerUrl) (mkToolCall (some "confluence_search")) ∧
     (∀ r, netBackendError
             (if McpAggregator.isAtlassianTool "confluence_search" then
                sampleAggregator.atlassianServerUrl
              else sampleAggregator.existingServerUrl)
             (mkToolCall (some "confluence_search")) = .ok r →
        (McpAggregator.handleRequest netBackendError sampleAggregator
           (mkToolCall (some "confluence_search"))).1 = r)) :=
  ⟨rfl, rfl, by decide,
   toolsCall_forward_verbatim netBackendError sampleAggregator
     (mkToolCall (some "confluence_search")) "confluence_search" rfl rfl (by decide)⟩

/-- Helper: a transport-level failure contributes no tools — the
synthesized error envelope has no `result`, hence no `result.tools`. -/
theorem contributedTools_of_failure (net : Network) (url : String) (req : McpMessage)
    (hf : (net url req).isOk = false) :
    (McpAggregator.forwardRequest net url req).contributedTools = [] := by
  cases hc : net url req with
  | ok r => rw [hc] at hf; simp [TransportOutcome.isOk] at hf
  | networkError s =>
      simp [McpAggregator.forwardRequest, forwardResponse, hc, transportErrorEnvelope,
        McpMessage.contributedTools]
  | httpError st stx =>
      simp [McpAggregator.forwardRequest, forwardResponse, hc, transportErrorEnvelope,
        McpMessage.contributedTools]
  | bodyParseError s =>
      simp [McpAggregator.forwardRequest, forwardResponse, hc, transportErrorEnvelope,
        McpMessage.contributedTools]

/-- C3: the merged `result.tools` of a `tools/list` request is the
concatenation, in backend registration order (existing first, Atlassian
second), of each backend response's contributed `result.tools` array with
per-backend order preserved; a backend whose call fails at the transport
level, or whose response carries no `result.tools` array, contributes
nothing, and no error is surfaced to the caller. -/
theorem toolsList_merge (net : Network) (agg : McpAggregator) (m : McpMessage)
    (h : m.method = some "tools/list") :
    (McpAggregator.handleRequest net agg m).1.result =
      some ⟨some
        ((McpAggregator.forwardRequest net agg.existingServerUrl (toolsListRequest 1)).contributedTools ++
         (McpAggregator.forwardRequest net agg.atlassianServerUrl (toolsListRequest 2)).contributedTools),
        ""⟩ ∧
    (McpAggregator.handleRequest net agg m).1.error = none ∧
    (∀ url req, (net url req).isOk = false →
       (McpAggregator.forwardRequest net url req).contributedTools = []) ∧
    (∀ url req r, net url req = .ok r → r.result = none →
       (McpAggregator.forwardRequest net url req).contributedTools = []) ∧
    (∀ url req r res, net url req = .ok r → r.result = some res → res.tools = none →
       (McpAggregator.forwardRequest net url req).contributedTools = []) := by
  refine ⟨?_, ?_, ?_, ?_, ?_⟩
  · simp [McpAggregator.handleRequest, h, McpAggregator.getAllTools]
  · simp [McpAggregator.handleRequest, h]
  · intro url req hf
    exact contributedTools_of_failure net url req hf
  · intro url req r hc hres
    simp [McpAggregator.forwardRequest, forwardResponse, hc, McpMessage.contributedTools, hres]
  · intro url req r res hc hres htools
    simp [McpAggregator.forwardRequest, forwardResponse, hc, McpMessage.contributedTools,
      hres, htools]

/-- Witness for C3: with the general backend serving two tools and the
Atlassian backend unreachable, the merged catalog is exactly the general
backend's two tools. -/
theorem toolsList_merge_witness :
    toolsListCall.method = some "tools/list" ∧
    ((McpAggregator.handleRequest netCatalog sampleAggregator toolsListCall).1.result =
       some ⟨some
         ((McpAggregator.forwardRequest netCatalog sampleAggregator.existingServerUrl
             (toolsListRequest 1)).contributedTools ++
          (McpAggregator.forwardRequest netCatalog sampleAggregator.atlassianServerUrl
             (toolsListRequest 2)).contributedTools),
         ""⟩ ∧
     (McpAggregator.handleRequest netCatalog sampleAggregator toolsListCall).1.error = none ∧
     (∀ url req, (netCatalog url req).isOk = false →
        (McpAggregator.forwardRequest netCatalog url req).contributedTools = []) ∧
     (∀ url req r, netCatalog url req = .ok r → r.result = none →
        (McpAggregator.forwardRequest netCatalog url req).contributedTools = []) ∧
     (∀ url req r res, netCatalog url req = .ok r → r.result = some res → res.tools = none →
        (McpAggregator.forwardRequest netCatalog url req).contributedTools = [])) :=
  ⟨rfl, toolsList_merge netCatalog sampleAggregator toolsListCall rfl⟩

/-- C4: every `tools/list` request yields a result envelope (never an
error envelope) whose `id` equals the inbound `id`; the two internally
synthesized backend requests carry the internal correlation ids 1 and 2,
which are discarded; and when both backends fail at the transport level
the response carries an empty tools list. -/
theorem toolsList_reply_shape (net : Network) (agg : McpAggregator) (m : McpMessage)
    (h : m.method = some "tools/list") :
    (McpAggregator.handleRequest net agg m).1.error = none ∧
    (McpAggregator.handleRequest net agg m).1.result.isSome = true ∧
    (McpAggregator.handleRequest net agg m).1.id = m.id ∧
    (McpAggregator.handleRequest net agg m).2 =
      [(agg.existingServerUrl, toolsListRequest 1),
       (agg.atlassianServerUrl, toolsListRequest 2)] ∧
    (toolsListRequest 1).id = some (.num 1) ∧
    (toolsListRequest 2).id = some (.num 2) ∧
    ((net agg.existingServerUrl (toolsListRequest 1)).isOk = false →
     (net agg.atlassianServerUrl (toolsListRequest 2)).isOk = false →
     (McpAggregator.handleRequest net agg m).1.result = some ⟨some [], ""⟩) := by
  refine ⟨?_, ?_, ?_, ?_, rfl, rfl, ?_⟩
  · simp [McpAggregator.handleRequest, h]
  · simp [McpAggregator.handleRequest, h]
  · simp [McpAggregator.handleRequest, h]
  · simp [McpAggregator.handleRequest, h, McpAggregator.getAllTools]
  · intro h1 h2
    have e1 := contributedTools_of_failure net agg.existingServerUrl (toolsListRequest 1) h1
    have e2 := contributedTools_of_failure net agg.atlassianServerUrl (toolsListRequest 2) h2
    simp [McpAggregator.handleRequest, h, McpAggregator.getAllTools, e1, e2]

/-- Witness for C4: with every backend unreachable, a concrete `tools/list`
request still gets a result envelope with the caller's `id` and an empty
tools list. -/
theorem toolsList_reply_shape_witness :
    toolsListCall.method = some "tools/list" ∧
    ((McpAggregator.handleRequest netDown sampleAggregator toolsListCall).1.error = none ∧
     (McpAggregator.handleRequest netDown sampleAggregator toolsListCall).1.result.isSome = true ∧
     (McpAggregator.handleRequest netDown sampleAggregator toolsListCall).1.id = toolsListCall.id ∧
     (McpAggregator.handleRequest netDown sampleAggregator toolsListCall).2 =
       [(sampleAggregator.existingServerUrl, toolsListRequest 1),
        (sampleAggregator.atlassianServerUrl, toolsListRequest 2)] ∧
     (toolsListRequest 1).id = some (.num 1) ∧
     (toolsListRequest 2).id = some (.num 2) ∧
     ((netDown sampleAggregator.existingServerUrl (toolsListRequest 1)).isOk = false →
      (netDown sampleAggregator.atlassianServerUrl (toolsListRequest 2)).isOk = false →
      (McpAggregator.handleRequest netDown sampleAggregator toolsListCall).1.result =
        some ⟨some [], ""⟩)) :=
  ⟨rfl, toolsList_reply_shape netDown sampleAggregator toolsListCall rfl⟩

/-- C7: for every envelope whose method is neither `initialize`,
`tools/list` nor `tools/call` (including an absent method), the router
forwards to the general backend first; if that response carries no `error`
it is returned as-is and the Atlassian backend is never contacted,
otherwise the same envelope is forwarded to the Atlassian backend and that
second response — success or error — is the final answer, with no further
chaining. -/
theorem fallback_chain (net : Network) (agg : McpAggregator) (m : McpMessage)
    (h1 : m.method ≠ some "initialize") (h2 : m.method ≠ some "tools/list")
    (h3 : m.method ≠ some "tools/call") :
    ((McpAggregator.forwardRequest net agg.existingServerUrl m).error.isNone = true →
      (McpAggregator.handleRequest net agg m).1 =
        McpAggregator.forwardRequest net agg.existingServerUrl m ∧
      (McpAggregator.handleRequest net agg m).2 = [(agg.existingServerUrl, m)]) ∧
    ((McpAggregator.forwardRequest net agg.existingServerUrl m).error.isNone = false →
      (McpAggregator.handleRequest net agg m).1 =
        McpAggregator.forwardRequest net agg.atlassianServerUrl m ∧
      (McpAggregator.handleRequest net agg m).2 =
        [(agg.existingServerUrl, m), (agg.atlassianServerUrl, m)]) := by
  constructor
  · intro hok
    constructor <;> simp [McpAggregator.handleRequest, h1, h2, h3, hok]
  · intro hbad
    constructor <;> simp [McpAggregator.handleRequest, h1, h2, h3, hbad]

/-- Witness for C7: on a concrete `ping` request where the general backend
answers with its own error envelope, the router calls the Atlassian backend
and returns exactly that second response. -/
theorem fallback_chain_witness :
    pingMessage.method ≠ some "initialize" ∧
    pingMessage.method ≠ some "tools/list" ∧
    pingMessage.method ≠ some "tools/call" ∧
    (((McpAggregator.forwardRequest netGeneralRejects
         sampleAggregator.existingServerUrl pingMessage).error.isNone = true →
       (McpAggregator.handleRequest netGeneralRejects sampleAggregator pingMessage).1 =
         McpAggregator.forwardRequest netGeneralRejects
           sampleAggregator.existingServerUrl pingMessage ∧
       (McpAggregator.handleRequest netGeneralRejects sampleAggregator pingMessage).2 =
         [(sampleAggregator.existingServerUrl, pingMessage)]) ∧
     ((McpAggregator.forwardRequest netGeneralRejects
         sampleAggregator.existingServerUrl pingMessage).error.isNone = false →
       (McpAggregator.handleRequest netGeneralRejects sampleAggregator pingMessage).1 =
         McpAggregator.forwardRequest netGeneralRejects
           sampleAggregator.atlassianServerUrl pingMessage ∧
       (McpAggregator.handleRequest netGeneralRejects sampleAggregator pingMessage).2 =
         [(sampleAggregator.existingServerUrl, pingMessage),
          (sampleAggregator.atlassianServerUrl, pingMessage)])) :=
  ⟨by decide, by decide, by decide,
   fallback_chain netGeneralRejects sampleAggregator pingMessage
     (by decide) (by decide) (by decide)⟩

/-- C8: a POST whose body does not parse as an envelope gets HTTP status
400 with the fixed `-32700` parse-error envelope and an empty call trace —
no backend is contacted — while every parseable body gets HTTP status 200,
so the parse error is the only condition affecting the outer status code. -/
theorem fetchPost_parse_error (net : Network) (env : Env) :
    (fetchPost net env none).1.status = 400 ∧
    (fetchPost net env none).1.body = parseErrorEnvelope ∧
    parseErrorEnvelope.error = some { code := -32700, message := "Parse error", extra := "" } ∧
    (fetchPost net env none).2 = [] ∧
    (∀ m, (fetchPost net env (some m)).1.status = 200) :=
  ⟨rfl, rfl, rfl, rfl, fun _ => rfl⟩

/-- Helper: the backend client always resolves with a well-formed envelope
provided every parsed backend response is well-formed; failures produce the
synthesized error envelope, which is well-formed by construction. -/
theorem forwardRequest_wellformed (net : Network) (url : String) (req : McpMessage)
    (hnet : ∀ u q r, net u q = .ok r → WellFormedEnvelope r) :
    WellFormedEnvelope (McpAggregator.forwardRequest net url req) := by
  cases hc : net url req with
  | ok r =>
      have := hnet url req r hc
      simpa [McpAggregator.forwardRequest, forwardResponse, hc] using this
  | networkError s =>
      simp [McpAggregator.forwardRequest, forwardResponse, hc, transportErrorEnvelope,
        WellFormedEnvelope]
  | httpError st stx =>
      simp [McpAggregator.forwardRequest, forwardResponse, hc, transportErrorEnvelope,
        WellFormedEnvelope]
  | bodyParseError s =>
      simp [McpAggregator.forwardRequest, forwardResponse, hc, transportErrorEnvelope,
        WellFormedEnvelope]

/-- C9: `handleRequest` is total — in this embedding it is a total Lean
function, mirroring that every transport failure is converted to a
structured error envelope inside the backend client — and for every inbound
envelope (any method, any params, including complete backend
unavailability) it returns a well-formed envelope (`jsonrpc "2.0"` with a
`result` or an `error` member), provided every parsed backend response body
is itself a well-formed envelope. -/
theorem handleRequest_total_wellformed (net : Network) (agg : McpAggregator) (m : McpMessage)
    (hnet : ∀ u q r, net u q = .ok r → WellFormedEnvelope r) :
    WellFormedEnvelope (McpAggregator.handleRequest net agg m).1 := by
  by_cases hm1 : m.method = some "initialize"
  · simp [McpAggregator.handleRequest, hm1, WellFormedEnvelope]
  by_cases hm2 : m.method = some "tools/list"
  · simp [McpAggregator.handleRequest, hm1, hm2, WellFormedEnvelope]
  by_cases hm3 : m.method = some "tools/call"
  · by_cases ht : truthyName m.toolName = false
    · simp [McpAggregator.handleRequest, hm1, hm2, hm3, ht, WellFormedEnvelope]
    · have hfwd := forwardRequest_wellformed net
        (if McpAggregator.isAtlassianTool (m.toolName.getD "") then agg.atlassianServerUrl
         else agg.existingServerUrl) m hnet
      simpa [McpAggregator.handleRequest, hm1, hm2, hm3, ht] using hfwd
  · by_cases he : (McpAggregator.forwardRequest net agg.existingServerUrl m).error.isNone
    · have hfwd := forwardRequest_wellformed net agg.existingServerUrl m hnet
      simpa [McpAggregator.handleRequest, hm1, hm2, hm3, he] using hfwd
    · have hfwd := forwardRequest_wellformed net agg.atlassianServerUrl m hnet
      simpa [McpAggregator.handleRequest, hm1, hm2, hm3, he] using hfwd

/-- Witness for C9: with every backend unreachable, a concrete request
still gets a well-formed envelope. -/
theorem handleRequest_total_wellformed_witness :
    (∀ u q r, netDown u q = .ok r → WellFormedEnvelope r) ∧
    WellFormedEnvelope (McpAggregator.handleRequest netDown sampleAggregator pingMessage).1 := by
  have hnet : ∀ u q r, netDown u q = .ok r → WellFormedEnvelope r := by
    intro u q r hc
    simp [netDown] at hc
  exact ⟨hnet, handleRequest_total_wellformed netDown sampleAggregator pingMessage hnet⟩
